import Mathlib

/-!
Formal model of the Space Invaders game logic in SpaceInvadersGame.py:
the high score table (class HighScores) and the per-tick simulation step
of the game worker (GameWorker.update_logic), together with the state
reset (GameWorker.reset_state), formation creation
(GameWorker.create_aliens), the mystery ship scoring call
(GameWorker.calculate_mystery_ship_score) and the player fire action
(the space key branch of SpaceInvadersGame.keyPressEvent).

Randomness is modeled by an explicit oracle supplying the values that the
Python random module returns during one tick.  Note that random.randint(a, b)
returns an integer in the inclusive range from a to b, and random.choice
picks one element of a nonempty list; random.random() < 0.3 is a boolean
draw.  Rectangle overlap, QRect(x, y, w, h).intersects, is true for
rectangles of positive width and height exactly when the two integer pixel
spans share at least one pixel (the right edge of QRect is x + w - 1 and the
bottom edge is y + h - 1).
-/

namespace SpaceInvaders

def WORLD_W : Int := 1000

def WORLD_H : Int := 800

def PLAYER_WIDTH : Int := 60

def PLAYER_HEIGHT : Int := 40

def GROUND_HEIGHT : Int := 50

inductive Difficulty
  | E
  | M
  | H
deriving Repr, DecidableEq

inductive AlienKind
  | squid
  | crab
  | octopus
deriving Repr, DecidableEq, Inhabited

/-- One alien entity, the dictionary built by GameWorker.create_aliens. -/
structure Alien where
  x : Int
  y : Int
  type : AlienKind
  color_index : Nat
  frame : Nat
deriving Repr, DecidableEq, Inhabited

/-- Domain events emitted during one tick: the update signal carrying
alien_fire (an alien fired) and the request_initials signal carrying the
final score (the GameOver event). -/
inductive Event
  | alienFired
  | requestInitials (finalScore : Nat)
deriving Repr, DecidableEq

def isGameOverEvent : Event → Bool
  | .requestInitials _ => true
  | .alienFired => false

/-- The game state dictionary of GameWorker (reset_state).  keys_pressed is
flattened into the two booleans keys_left and keys_right. -/
structure GameState where
  player_x : Int
  player_y : Int
  bullets : List (Int × Int)
  alien_bullets : List (Int × Int)
  aliens : List Alien
  alien_direction : Int
  alien_speed : Int
  alien_anim_counter : Nat
  score : Nat
  lives : Int
  level : Nat
  game_over : Bool
  keys_left : Bool
  keys_right : Bool
  alien_shoot_cooldown : Int
  paused : Bool
  shots_fired : Nat
  mystery_ship : Option (Int × Int)
  mystery_ship_direction : Int
  mystery_ship_cooldown : Int
deriving Repr, DecidableEq

/-- The values drawn from the Python random module during one tick (or one
reset): colors i is the randint(0, 5) drawn for the i-th alien created by
create_aliens; shoot_roll is the outcome of random.random() < 0.3;
shooter_idx selects the alien returned by random.choice (taken modulo the
length of the list); spawn_left is random.choice([True, False]) for the
mystery ship spawn edge; cooldown_draw is the randint(600, 1000) drawn if a
mystery ship disappears this tick. -/
structure Oracle where
  colors : Nat → Nat
  shoot_roll : Bool
  shooter_idx : Nat
  spawn_left : Bool
  cooldown_draw : Int

/-- QRect(x1, y1, w1, h1).intersects(QRect(x2, y2, w2, h2)) for rectangles
of positive width and height: the closed pixel spans overlap. -/
def rectIntersects (x1 y1 w1 h1 x2 y2 w2 h2 : Int) : Bool :=
  decide (x1 ≤ x2 + w2 - 1) && decide (x2 ≤ x1 + w1 - 1) &&
  decide (y1 ≤ y2 + h2 - 1) && decide (y2 ≤ y1 + h1 - 1)

/-- Player bullet (5 by 15) against the padded alien hitbox,
QRect(alien.x - 5, alien.y - 5, 40 + 5, 30 + 5). -/
def bulletHitsAlien (b : Int × Int) (a : Alien) : Bool :=
  rectIntersects b.1 b.2 5 15 (a.x - 5) (a.y - 5) 45 35

/-- Player bullet (5 by 15) against the mystery ship rectangle (60 by 30). -/
def bulletHitsShip (b : Int × Int) (ship : Int × Int) : Bool :=
  rectIntersects b.1 b.2 5 15 ship.1 ship.2 60 30

/-- Alien bullet (5 by 15) against the player rectangle. -/
def bulletHitsPlayer (px py : Int) (b : Int × Int) : Bool :=
  rectIntersects b.1 b.2 5 15 px py PLAYER_WIDTH PLAYER_HEIGHT

/-- Row kinds of GameWorker.create_aliens. -/
def alien_rows : List AlienKind := [.squid, .crab, .crab, .octopus, .octopus]

/-- GameWorker.create_aliens: a fresh 5 by 11 formation; the i-th alien
created (row major) gets color colors i. -/
def createAliens (colors : Nat → Nat) : List Alien :=
  (List.range 5).bind fun (row : Nat) =>
    (List.range 11).map fun (col : Nat) =>
      { x := 50 + (col : Int) * 50
        y := 50 + (row : Int) * 40
        type := alien_rows.getD row .squid
        color_index := colors (row * 11 + col)
        frame := 0 }

/-- GameWorker.reset_state.  keys_pressed is copied from the worker (kl,
kr); cd is the randint(600, 1000) drawn for the initial mystery ship
countdown and colors feeds create_aliens. -/
def reset_state (colors : Nat → Nat) (cd : Int) (kl kr : Bool) : GameState :=
  { player_x := (WORLD_W - PLAYER_WIDTH) / 2
    player_y := WORLD_H - GROUND_HEIGHT - PLAYER_HEIGHT
    bullets := []
    alien_bullets := []
    aliens := createAliens colors
    alien_direction := 1
    alien_speed := 10
    alien_anim_counter := 0
    score := 0
    lives := 3
    level := 1
    game_over := false
    keys_left := kl
    keys_right := kr
    alien_shoot_cooldown := 0
    paused := false
    shots_fired := 0
    mystery_ship := none
    mystery_ship_direction := 1
    mystery_ship_cooldown := cd }

/-- GameWorker.calculate_mystery_ship_score, acting on the shots_fired
counter: increments it, then computes min(50 + ((shots_fired + 22) % 15) * 50, 300)
from the incremented value.  Returns the new counter and the award. -/
def calculate_mystery_ship_score (shots_fired : Nat) : Nat × Nat :=
  let sf := shots_fired + 1
  (sf, min (50 + ((sf + 22) % 15) * 50) 300)

/-- Player movement step of update_logic: left key clamps at 0, right key
clamps at WORLD_W - PLAYER_WIDTH, step 10. -/
def movePlayer (s : GameState) : GameState :=
  let x1 := if s.keys_left then max 0 (s.player_x - 10) else s.player_x
  let x2 := if s.keys_right then min (WORLD_W - PLAYER_WIDTH) (x1 + 10) else x1
  { s with player_x := x2 }

/-- Bullet movement step of update_logic: both lists are rebuilt by a
comprehension that keeps bullets strictly inside the vertical bound
(checked on the position before the move) and moves the survivors. -/
def moveBullets (s : GameState) : GameState :=
  { s with
    bullets := (s.bullets.filter fun b => decide (0 < b.2)).map fun b => (b.1, b.2 - 20)
    alien_bullets :=
      (s.alien_bullets.filter fun b => decide (b.2 < WORLD_H)).map fun b => (b.1, b.2 + 15) }

/-- Alien movement: every alien moves by direction * speed and the shared
animation counter is incremented. -/
def moveAliensStep (s : GameState) : GameState :=
  { s with
    aliens := s.aliens.map fun a => { a with x := a.x + s.alien_direction * s.alien_speed }
    alien_anim_counter := s.alien_anim_counter + 1 }

/-- Edge detection of update_logic, evaluated on the post-move positions:
some alien has x ≤ 0 or x ≥ WORLD_W - 40. -/
def edgeHit (s : GameState) : Bool :=
  s.aliens.any fun a => decide (a.x ≤ 0) || decide (WORLD_W - 40 ≤ a.x)

def ANIM_SPEED : Nat := 5

/-- Animation block: every ANIM_SPEED ticks all frames toggle and the
counter resets. -/
def animate (s : GameState) : GameState :=
  if ANIM_SPEED ≤ s.alien_anim_counter then
    { s with
      aliens := s.aliens.map fun a => { a with frame := (a.frame + 1) % 2 }
      alien_anim_counter := 0 }
  else s

/-- Edge application: if an edge hit was recorded this tick, the direction
is multiplied by -1 and every alien is shifted down 20, once. -/
def applyEdge (edge : Bool) (s : GameState) : GameState :=
  if edge then
    { s with
      alien_direction := s.alien_direction * (-1)
      aliens := s.aliens.map fun a => { a with y := a.y + 20 } }
  else s

def cooldownFor : Difficulty → Int
  | .E => 15
  | .M => 7
  | .H => 3

/-- Alien shooting: when the cooldown is ≤ 0, aliens exist and the random
roll succeeds, a random alien fires from (x + 18, y + 30), the cooldown is
reset to the difficulty value and an alien_fire update is emitted;
otherwise, when the cooldown is positive, it is decremented. -/
def alienShoot (o : Oracle) (d : Difficulty) (s : GameState) : GameState × List Event :=
  if s.alien_shoot_cooldown ≤ 0 then
    if (!s.aliens.isEmpty) && o.shoot_roll then
      let shooter := s.aliens.getD (o.shooter_idx % s.aliens.length) default
      ({ s with
          alien_bullets := s.alien_bullets ++ [(shooter.x + 18, shooter.y + 30)]
          alien_shoot_cooldown := cooldownFor d }, [.alienFired])
    else (s, [])
  else ({ s with alien_shoot_cooldown := s.alien_shoot_cooldown - 1 }, [])

/-- Mystery ship block: absent ship decrements the countdown and spawns at
a random horizontal edge when it reaches ≤ 0; a present ship moves by
direction * 5 and is destroyed when x < -60 or x > WORLD_W, redrawing the
countdown with randint(600, 1000). -/
def mysteryMove (o : Oracle) (s : GameState) : GameState :=
  match s.mystery_ship with
  | none =>
    if s.mystery_ship_cooldown - 1 ≤ 0 then
      let start_x : Int := if o.spawn_left then 0 else WORLD_W - 60
      let dir : Int := if start_x = 0 then 1 else -1
      { s with
        mystery_ship := some (start_x, 50)
        mystery_ship_direction := dir
        mystery_ship_cooldown := s.mystery_ship_cooldown - 1 }
    else { s with mystery_ship_cooldown := s.mystery_ship_cooldown - 1 }
  | some ship =>
    if ship.1 + s.mystery_ship_direction * 5 < -60 ∨
        WORLD_W < ship.1 + s.mystery_ship_direction * 5 then
      { s with mystery_ship := none, mystery_ship_cooldown := o.cooldown_draw }
    else { s with mystery_ship := some (ship.1 + s.mystery_ship_direction * 5, ship.2) }

def difficultyMult : Difficulty → Nat
  | .E => 1
  | .M => 2
  | .H => 3

/-- Collision loop of update_logic, player bullets against aliens: for each
alien in order, the first bullet overlapping its padded hitbox kills it,
that bullet is removed from the bullet list, the score grows by
10 * difficultyMult, and surviving aliens are collected in order. -/
def collideAliensLoop (mult : Nat) :
    List Alien → List (Int × Int) → Nat → List Alien × List (Int × Int) × Nat
  | [], bullets, score => ([], bullets, score)
  | a :: rest, bullets, score =>
    if bullets.any fun b => bulletHitsAlien b a then
      collideAliensLoop mult rest (bullets.eraseP fun b => bulletHitsAlien b a)
        (score + 10 * mult)
    else
      let r := collideAliensLoop mult rest bullets score
      (a :: r.1, r.2.1, r.2.2)

def collideAliens (d : Difficulty) (s : GameState) : GameState :=
  let r := collideAliensLoop (difficultyMult d) s.aliens s.bullets s.score
  { s with aliens := r.1, bullets := r.2.1, score := r.2.2 }

/-- Whether some player bullet currently overlaps the present mystery
ship. -/
def mysteryHitNow (s : GameState) : Bool :=
  match s.mystery_ship with
  | none => false
  | some ship => s.bullets.any fun b => bulletHitsShip b ship

/-- Mystery ship collision block of update_logic: the first player bullet
overlapping the ship is removed, the score grows by the value of the
calculate_mystery_ship_score call (which increments shots_fired first), the
ship is removed and the countdown redrawn with randint(600, 1000). -/
def collideMystery (o : Oracle) (s : GameState) : GameState :=
  match s.mystery_ship with
  | none => s
  | some ship =>
    if s.bullets.any fun b => bulletHitsShip b ship then
      let r := calculate_mystery_ship_score s.shots_fired
      { s with
        bullets := s.bullets.eraseP fun b => bulletHitsShip b ship
        shots_fired := r.1
        score := s.score + r.2
        mystery_ship := none
        mystery_ship_cooldown := o.cooldown_draw }
    else s

/-- Loop of update_logic over a copy of the alien bullet list: each bullet
overlapping the player is removed and costs one life; every hit that leaves
lives ≤ 0 sets game_over and emits request_initials with the current
score.  Returns surviving bullets, lives, the game over flag and the
emitted events, in order. -/
def alienBulletsPlayerLoop (px py : Int) (score : Nat) :
    List (Int × Int) → Int → Bool → List (Int × Int) × Int × Bool × List Event
  | [], lives, go => ([], lives, go, [])
  | b :: rest, lives, go =>
    if bulletHitsPlayer px py b then
      let lives1 := lives - 1
      let go1 := go || decide (lives1 ≤ 0)
      let evs0 : List Event := if lives1 ≤ 0 then [.requestInitials score] else []
      let r := alienBulletsPlayerLoop px py score rest lives1 go1
      (r.1, r.2.1, r.2.2.1, evs0 ++ r.2.2.2)
    else
      let r := alienBulletsPlayerLoop px py score rest lives go
      (b :: r.1, r.2.1, r.2.2.1, r.2.2.2)

/-- Level completion block: if the alien list is empty after collision
resolution, the level and the formation speed grow and create_aliens
repopulates the formation.  Nothing else is changed. -/
def levelComplete (o : Oracle) (s : GameState) : GameState :=
  if s.aliens.isEmpty then
    { s with
      level := s.level + 1
      alien_speed := s.alien_speed + 2
      aliens := createAliens o.colors }
  else s

/-- Bottom check of update_logic: if some alien has y + 30 at or below the
player row, game_over is set and request_initials is emitted once. -/
def aliensBottom (s : GameState) : GameState × List Event :=
  if s.aliens.any fun a => decide (s.player_y ≤ a.y + 30) then
    ({ s with game_over := true }, [.requestInitials s.score])
  else (s, [])

/-- Formation phase of one tick: player movement, bullet movement, alien
movement with edge detection, animation, then the single edge
application. -/
def phaseFormation (s : GameState) : GameState :=
  let m := moveAliensStep (moveBullets (movePlayer s))
  applyEdge (edgeHit m) (animate m)

/-- Tick prefix through the alien shooting block. -/
def phaseShoot (o : Oracle) (d : Difficulty) (s : GameState) : GameState × List Event :=
  alienShoot o d (phaseFormation s)

/-- Tick prefix through the mystery ship collision block (the state before
alien bullets are tested against the player). -/
def phaseMid (o : Oracle) (d : Difficulty) (s : GameState) : GameState :=
  collideMystery o (collideAliens d (mysteryMove o (phaseShoot o d s).1))

/-- Tick prefix through the alien-bullets-versus-player loop, with the
events emitted so far excluded (they are added back in update_logic). -/
def phaseHits (o : Oracle) (d : Difficulty) (s : GameState) : GameState × List Event :=
  let s9 := phaseMid o d s
  let r := alienBulletsPlayerLoop s9.player_x s9.player_y s9.score s9.alien_bullets
    s9.lives s9.game_over
  ({ s9 with alien_bullets := r.1, lives := r.2.1, game_over := r.2.2.1 }, r.2.2.2)

/-- GameWorker.update_logic: one tick.  Returns the final state and the
list of emitted events (alien_fire updates and request_initials signals) in
emission order.  A tick on a game-over state is a no-op. -/
def update_logic (o : Oracle) (d : Difficulty) (s : GameState) : GameState × List Event :=
  if s.game_over then (s, [])
  else
    let s10 := (phaseHits o d s).1
    let s11 := levelComplete o s10
    ((aliensBottom s11).1,
      (phaseShoot o d s).2 ++ (phaseHits o d s).2 ++ (aliensBottom s11).2)

/-- The space key branch of SpaceInvadersGame.keyPressEvent: appends a
player bullet at the gun position.  It touches nothing else. -/
def fireBullet (s : GameState) : GameState :=
  { s with bullets := s.bullets ++ [(s.player_x + PLAYER_WIDTH / 2 - 2, s.player_y)] }

/-- SpaceInvadersGame.update_key_state: the worker receives the current
intent flags before the next tick reads them. -/
def setKeys (l r : Bool) (s : GameState) : GameState :=
  { s with keys_left := l, keys_right := r }

/-- A run of ticks: before each tick the current movement intent is written
into the state, then update_logic advances it. -/
def runTicksI (d : Difficulty) (steps : List (Oracle × Bool × Bool)) (s : GameState) :
    GameState :=
  steps.foldl (fun st step => (update_logic step.1 d (setKeys step.2.1 step.2.2 st)).1) s

/-- Whether this tick destroys the mystery ship by a player bullet (the
condition of the collision block, evaluated at its place in the tick). -/
def tickMysteryDestroyed (o : Oracle) (d : Difficulty) (s : GameState) : Bool :=
  !s.game_over && mysteryHitNow (collideAliens d (mysteryMove o (phaseShoot o d s).1))

/-! High score table (class HighScores).  Strings are modeled as lists of
characters; the persisted file as a value that is either missing, present
but not decodable as JSON, or present with a decoded entry list. -/

/-- One entry of the high score list: a dictionary with keys initials and
score. -/
structure ScoreEntry where
  initials : List Char
  score : Int
deriving Repr, DecidableEq

/-- The exceptions the score persistence code can raise: OSError (open or
read on an unreadable path, also the write path), UnicodeDecodeError (file
bytes that are not valid text), and json.JSONDecodeError (text that is not
valid JSON). Only the last one is a subclass of the clause caught by
load_scores. -/
inductive PyError
  | osError
  | unicodeDecodeError
  | jsonDecodeError
deriving Repr, DecidableEq

/-- The scores.json path: missing; existing but unreadable (open or read
raises OSError, for example the path is a directory); existing with bytes
that fail text decoding (UnicodeDecodeError); existing with text that
json.load rejects (JSONDecodeError); or existing with a cleanly decodable
serialized entry list. -/
inductive ScoresFile
  | missing
  | unreadable
  | undecodable
  | corrupt
  | saved (entries : List ScoreEntry)
deriving Repr, DecidableEq

def fileExists : ScoresFile → Bool
  | .missing => false
  | _ => true

/-- open plus json.load on the file: raises OSError when the path cannot
be opened or read, UnicodeDecodeError when the bytes do not decode,
JSONDecodeError when the text is not valid JSON, and otherwise returns the
decoded list.  (The missing case raises FileNotFoundError, an OSError; it
is unreachable behind the exists check of load_scores.) -/
def json_load : ScoresFile → Except PyError (List ScoreEntry)
  | .missing => .error .osError
  | .unreadable => .error .osError
  | .undecodable => .error .unicodeDecodeError
  | .corrupt => .error .jsonDecodeError
  | .saved l => .ok l

/-- HighScores.load_scores: if the file exists, open and json.load it; the
except clause catches ONLY json.JSONDecodeError (returning the empty
list); any other exception (OSError, UnicodeDecodeError) propagates to the
caller.  A missing file yields the empty list. -/
def load_scores (f : ScoresFile) : Except PyError (List ScoreEntry) :=
  if fileExists f then
    match json_load f with
    | .ok l => .ok l
    | .error .jsonDecodeError => .ok []
    | .error e => .error e
  else .ok []

def baseOracle : Oracle :=
  { colors := fun _ => 0
    shoot_roll := false
    shooter_idx := 0
    spawn_left := true
    cooldown_draw := 700 }

/-- Oracle whose countdown redraw is 1000, a value random.randint(600, 1000)
can return. -/
def maxDrawOracle : Oracle :=
  { baseOracle with cooldown_draw := 1000 }

/-- A quiet mid-game state: player centered at the ground row, no bullets,
no aliens, no mystery ship, positive cooldowns. -/
def baseState : GameState :=
  { player_x := 470
    player_y := 710
    bullets := []
    alien_bullets := []
    aliens := []
    alien_direction := 1
    alien_speed := 10
    alien_anim_counter := 0
    score := 0
    lives := 3
    level := 1
    game_over := false
    keys_left := false
    keys_right := false
    alien_shoot_cooldown := 10
    paused := false
    shots_fired := 0
    mystery_ship := none
    mystery_ship_direction := 1
    mystery_ship_cooldown := 500 }

/-- Empty formation moving left: the tick levels up from this state. -/
def emptyLeftState : GameState :=
  { baseState with alien_direction := -1 }

/-- One life left and two alien bullets that will both overlap the player
after this tick moves them down 15. -/
def twoBulletState : GameState :=
  { baseState with lives := 1, alien_bullets := [(490, 700), (500, 700)] }

/-- One life left and exactly one alien bullet that will overlap the player
after this tick moves it down 15. -/
def oneBulletState : GameState :=
  { baseState with lives := 1, alien_bullets := [(490, 700)] }

/-- Mystery ship at x = 996 moving right: this tick moves it to 1001, past
the right world bound, so it is destroyed and the countdown redrawn. -/
def shipExitState : GameState :=
  { baseState with mystery_ship := some (996, 50), mystery_ship_direction := 1 }

/-- Mystery ship present with a player bullet overlapping it, and two shots
already counted. -/
def shipHitState : GameState :=
  { baseState with mystery_ship := some (400, 50), bullets := [(410, 60)], shots_fired := 2 }

/-! Field preservation lemmas: each phase of the tick leaves the fields it
does not own untouched. -/

@[simp] theorem movePlayer_py (s : GameState) : (movePlayer s).player_y = s.player_y := rfl

@[simp] theorem movePlayer_dir (s : GameState) :
    (movePlayer s).alien_direction = s.alien_direction := rfl

@[simp] theorem movePlayer_shots (s : GameState) : (movePlayer s).shots_fired = s.shots_fired := rfl

@[simp] theorem movePlayer_lives (s : GameState) : (movePlayer s).lives = s.lives := rfl

@[simp] theorem movePlayer_go (s : GameState) : (movePlayer s).game_over = s.game_over := rfl

@[simp] theorem movePlayer_level (s : GameState) : (movePlayer s).level = s.level := rfl

@[simp] theorem movePlayer_speed (s : GameState) : (movePlayer s).alien_speed = s.alien_speed := rfl

@[simp] theorem movePlayer_counter (s : GameState) :
    (movePlayer s).alien_anim_counter = s.alien_anim_counter := rfl

@[simp] theorem movePlayer_aliens (s : GameState) : (movePlayer s).aliens = s.aliens := rfl

@[simp] theorem moveBullets_px (s : GameState) : (moveBullets s).player_x = s.player_x := rfl

@[simp] theorem moveBullets_py (s : GameState) : (moveBullets s).player_y = s.player_y := rfl

@[simp] theorem moveBullets_dir (s : GameState) :
    (moveBullets s).alien_direction = s.alien_direction := rfl

@[simp] theorem moveBullets_shots (s : GameState) :
    (moveBullets s).shots_fired = s.shots_fired := rfl

@[simp] theorem moveBullets_lives (s : GameState) : (moveBullets s).lives = s.lives := rfl

@[simp] theorem moveBullets_go (s : GameState) : (moveBullets s).game_over = s.game_over := rfl

@[simp] theorem moveBullets_level (s : GameState) : (moveBullets s).level = s.level := rfl

@[simp] theorem moveBullets_speed (s : GameState) :
    (moveBullets s).alien_speed = s.alien_speed := rfl

@[simp] theorem moveBullets_counter (s : GameState) :
    (moveBullets s).alien_anim_counter = s.alien_anim_counter := rfl

@[simp] theorem moveBullets_aliens (s : GameState) : (moveBullets s).aliens = s.aliens := rfl

@[simp] theorem moveAliensStep_px (s : GameState) : (moveAliensStep s).player_x = s.player_x := rfl

@[simp] theorem moveAliensStep_py (s : GameState) : (moveAliensStep s).player_y = s.player_y := rfl

@[simp] theorem moveAliensStep_dir (s : GameState) :
    (moveAliensStep s).alien_direction = s.alien_direction := rfl

@[simp] theorem moveAliensStep_shots (s : GameState) :
    (moveAliensStep s).shots_fired = s.shots_fired := rfl

@[simp] theorem moveAliensStep_lives (s : GameState) : (moveAliensStep s).lives = s.lives := rfl

@[simp] theorem moveAliensStep_go (s : GameState) :
    (moveAliensStep s).game_over = s.game_over := rfl

@[simp] theorem moveAliensStep_level (s : GameState) : (moveAliensStep s).level = s.level := rfl

@[simp] theorem moveAliensStep_speed (s : GameState) :
    (moveAliensStep s).alien_speed = s.alien_speed := rfl

@[simp] theorem animate_px (s : GameState) : (animate s).player_x = s.player_x := by
  unfold animate; split <;> rfl

@[simp] theorem animate_py (s : GameState) : (animate s).player_y = s.player_y := by
  unfold animate; split <;> rfl

@[simp] theorem animate_dir (s : GameState) :
    (animate s).alien_direction = s.alien_direction := by
  unfold animate; split <;> rfl

@[simp] theorem animate_shots (s : GameState) : (animate s).shots_fired = s.shots_fired := by
  unfold animate; split <;> rfl

@[simp] theorem animate_lives (s : GameState) : (animate s).lives = s.lives := by
  unfold animate; split <;> rfl

@[simp] theorem animate_go (s : GameState) : (animate s).game_over = s.game_over := by
  unfold animate; split <;> rfl

@[simp] theorem animate_level (s : GameState) : (animate s).level = s.level := by
  unfold animate; split <;> rfl

@[simp] theorem animate_speed (s : GameState) : (animate s).alien_speed = s.alien_speed := by
  unfold animate; split <;> rfl

theorem animate_aliens_y (s : GameState) :
    (animate s).aliens.map (fun a => a.y) = s.aliens.map fun a => a.y := by
  unfold animate; split
  · simp
  · rfl

@[simp] theorem applyEdge_px (e : Bool) (s : GameState) :
    (applyEdge e s).player_x = s.player_x := by
  unfold applyEdge; split <;> rfl

@[simp] theorem applyEdge_py (e : Bool) (s : GameState) :
    (applyEdge e s).player_y = s.player_y := by
  unfold applyEdge; split <;> rfl

@[simp] theorem applyEdge_shots (e : Bool) (s : GameState) :
    (applyEdge e s).shots_fired = s.shots_fired := by
  unfold applyEdge; split <;> rfl

@[simp] theorem applyEdge_lives (e : Bool) (s : GameState) :
    (applyEdge e s).lives = s.lives := by
  unfold applyEdge; split <;> rfl

@[simp] theorem applyEdge_go (e : Bool) (s : GameState) :
    (applyEdge e s).game_over = s.game_over := by
  unfold applyEdge; split <;> rfl

@[simp] theorem applyEdge_level (e : Bool) (s : GameState) :
    (applyEdge e s).level = s.level := by
  unfold applyEdge; split <;> rfl

@[simp] theorem applyEdge_speed (e : Bool) (s : GameState) :
    (applyEdge e s).alien_speed = s.alien_speed := by
  unfold applyEdge; split <;> rfl

@[simp] theorem applyEdge_counter (e : Bool) (s : GameState) :
    (applyEdge e s).alien_anim_counter = s.alien_anim_counter := by
  unfold applyEdge; split <;> rfl

theorem applyEdge_dir (e : Bool) (s : GameState) :
    (applyEdge e s).alien_direction = if e then s.alien_direction * (-1) else s.alien_direction := by
  unfold applyEdge; split <;> simp_all

theorem applyEdge_aliens_y (e : Bool) (s : GameState) :
    (applyEdge e s).aliens.map (fun a => a.y) =
      s.aliens.map fun a => a.y + if e then 20 else 0 := by
  unfold applyEdge; split <;> simp_all

@[simp] theorem alienShoot_px (o : Oracle) (d : Difficulty) (s : GameState) :
    (alienShoot o d s).1.player_x = s.player_x := by
  unfold alienShoot; split
  · split <;> rfl
  · rfl

@[simp] theorem alienShoot_py (o : Oracle) (d : Difficulty) (s : GameState) :
    (alienShoot o d s).1.player_y = s.player_y := by
  unfold alienShoot; split
  · split <;> rfl
  · rfl

@[simp] theorem alienShoot_dir (o : Oracle) (d : Difficulty) (s : GameState) :
    (alienShoot o d s).1.alien_direction = s.alien_direction := by
  unfold alienShoot; split
  · split <;> rfl
  · rfl

@[simp] theorem alienShoot_shots (o : Oracle) (d : Difficulty) (s : GameState) :
    (alienShoot o d s).1.shots_fired = s.shots_fired := by
  unfold alienShoot; split
  · split <;> rfl
  · rfl

@[simp] theorem alienShoot_lives (o : Oracle) (d : Difficulty) (s : GameState) :
    (alienShoot o d s).1.lives = s.lives := by
  unfold alienShoot; split
  · split <;> rfl
  · rfl

@[simp] theorem alienShoot_go (o : Oracle) (d : Difficulty) (s : GameState) :
    (alienShoot o d s).1.game_over = s.game_over := by
  unfold alienShoot; split
  · split <;> rfl
  · rfl

@[simp] theorem alienShoot_level (o : Oracle) (d : Difficulty) (s : GameState) :
    (alienShoot o d s).1.level = s.level := by
  unfold alienShoot; split
  · split <;> rfl
  · rfl

@[simp] theorem alienShoot_speed (o : Oracle) (d : Difficulty) (s : GameState) :
    (alienShoot o d s).1.alien_speed = s.alien_speed := by
  unfold alienShoot; split
  · split <;> rfl
  · rfl

@[simp] theorem alienShoot_counter (o : Oracle) (d : Difficulty) (s : GameState) :
    (alienShoot o d s).1.alien_anim_counter = s.alien_anim_counter := by
  unfold alienShoot; split
  · split <;> rfl
  · rfl

@[simp] theorem alienShoot_aliens (o : Oracle) (d : Difficulty) (s : GameState) :
    (alienShoot o d s).1.aliens = s.aliens := by
  unfold alienShoot; split
  · split <;> rfl
  · rfl

@[simp] theorem alienShoot_bullets (o : Oracle) (d : Difficulty) (s : GameState) :
    (alienShoot o d s).1.bullets = s.bullets := by
  unfold alienShoot; split
  · split <;> rfl
  · rfl

@[simp] theorem alienShoot_mystery (o : Oracle) (d : Difficulty) (s : GameState) :
    (alienShoot o d s).1.mystery_ship = s.mystery_ship := by
  unfold alienShoot; split
  · split <;> rfl
  · rfl

theorem alienShoot_events (o : Oracle) (d : Difficulty) (s : GameState) :
    (alienShoot o d s).2 = [] ∨ (alienShoot o d s).2 = [.alienFired] := by
  unfold alienShoot; split
  · split
    · right; rfl
    · left; rfl
  · left; rfl

@[simp] theorem mysteryMove_px (o : Oracle) (s : GameState) :
    (mysteryMove o s).player_x = s.player_x := by
  unfold mysteryMove; split <;> split <;> rfl

@[simp] theorem mysteryMove_py (o : Oracle) (s : GameState) :
    (mysteryMove o s).player_y = s.player_y := by
  unfold mysteryMove; split <;> split <;> rfl

@[simp] theorem mysteryMove_dir (o : Oracle) (s : GameState) :
    (mysteryMove o s).alien_direction = s.alien_direction := by
  unfold mysteryMove; split <;> split <;> rfl

@[simp] theorem mysteryMove_shots (o : Oracle) (s : GameState) :
    (mysteryMove o s).shots_fired = s.shots_fired := by
  unfold mysteryMove; split <;> split <;> rfl

@[simp] theorem mysteryMove_lives (o : Oracle) (s : GameState) :
    (mysteryMove o s).lives = s.lives := by
  unfold mysteryMove; split <;> split <;> rfl

@[simp] theorem mysteryMove_go (o : Oracle) (s : GameState) :
    (mysteryMove o s).game_over = s.game_over := by
  unfold mysteryMove; split <;> split <;> rfl

@[simp] theorem mysteryMove_level (o : Oracle) (s : GameState) :
    (mysteryMove o s).level = s.level := by
  unfold mysteryMove; split <;> split <;> rfl

@[simp] theorem mysteryMove_speed (o : Oracle) (s : GameState) :
    (mysteryMove o s).alien_speed = s.alien_speed := by
  unfold mysteryMove; split <;> split <;> rfl

@[simp] theorem mysteryMove_counter (o : Oracle) (s : GameState) :
    (mysteryMove o s).alien_anim_counter = s.alien_anim_counter := by
  unfold mysteryMove; split <;> split <;> rfl

@[simp] theorem mysteryMove_aliens (o : Oracle) (s : GameState) :
    (mysteryMove o s).aliens = s.aliens := by
  unfold mysteryMove; split <;> split <;> rfl

@[simp] theorem mysteryMove_bullets (o : Oracle) (s : GameState) :
    (mysteryMove o s).bullets = s.bullets := by
  unfold mysteryMove; split <;> split <;> rfl

@[simp] theorem collideAliens_px (d : Difficulty) (s : GameState) :
    (collideAliens d s).player_x = s.player_x := rfl

@[simp] theorem collideAliens_py (d : Difficulty) (s : GameState) :
    (collideAliens d s).player_y = s.player_y := rfl

@[simp] theorem collideAliens_dir (d : Difficulty) (s : GameState) :
    (collideAliens d s).alien_direction = s.alien_direction := rfl

@[simp] theorem collideAliens_shots (d : Difficulty) (s : GameState) :
    (collideAliens d s).shots_fired = s.shots_fired := rfl

@[simp] theorem collideAliens_lives (d : Difficulty) (s : GameState) :
    (collideAliens d s).lives = s.lives := rfl

@[simp] theorem collideAliens_go (d : Difficulty) (s : GameState) :
    (collideAliens d s).game_over = s.game_over := rfl

@[simp] theorem collideAliens_level (d : Difficulty) (s : GameState) :
    (collideAliens d s).level = s.level := rfl

@[simp] theorem collideAliens_speed (d : Difficulty) (s : GameState) :
    (collideAliens d s).alien_speed = s.alien_speed := rfl

@[simp] theorem collideAliens_counter (d : Difficulty) (s : GameState) :
    (collideAliens d s).alien_anim_counter = s.alien_anim_counter := rfl

@[simp] theorem collideAliens_mystery (d : Difficulty) (s : GameState) :
    (collideAliens d s).mystery_ship = s.mystery_ship := rfl

@[simp] theorem collideMystery_px (o : Oracle) (s : GameState) :
    (collideMystery o s).player_x = s.player_x := by
  unfold collideMystery; split
  · rfl
  · split <;> rfl

@[simp] theorem collideMystery_py (o : Oracle) (s : GameState) :
    (collideMystery o s).player_y = s.player_y := by
  unfold collideMystery; split
  · rfl
  · split <;> rfl

@[simp] theorem collideMystery_dir (o : Oracle) (s : GameState) :
    (collideMystery o s).alien_direction = s.alien_direction := by
  unfold collideMystery; split
  · rfl
  · split <;> rfl

@[simp] theorem collideMystery_lives (o : Oracle) (s : GameState) :
    (collideMystery o s).lives = s.lives := by
  unfold collideMystery; split
  · rfl
  · split <;> rfl

@[simp] theorem collideMystery_go (o : Oracle) (s : GameState) :
    (collideMystery o s).game_over = s.game_over := by
  unfold collideMystery; split
  · rfl
  · split <;> rfl

@[simp] theorem collideMystery_level (o : Oracle) (s : GameState) :
    (collideMystery o s).level = s.level := by
  unfold collideMystery; split
  · rfl
  · split <;> rfl

@[simp] theorem collideMystery_speed (o : Oracle) (s : GameState) :
    (collideMystery o s).alien_speed = s.alien_speed := by
  unfold collideMystery; split
  · rfl
  · split <;> rfl

@[simp] theorem collideMystery_counter (o : Oracle) (s : GameState) :
    (collideMystery o s).alien_anim_counter = s.alien_anim_counter := by
  unfold collideMystery; split
  · rfl
  · split <;> rfl

@[simp] theorem collideMystery_aliens (o : Oracle) (s : GameState) :
    (collideMystery o s).aliens = s.aliens := by
  unfold collideMystery; split
  · rfl
  · split <;> rfl

theorem collideMystery_shots (o : Oracle) (s : GameState) :
    (collideMystery o s).shots_fired =
      s.shots_fired + if mysteryHitNow s then 1 else 0 := by
  unfold collideMystery mysteryHitNow
  split
  · simp
  · split <;> simp_all [calculate_mystery_ship_score]

@[simp] theorem levelComplete_px (o : Oracle) (s : GameState) :
    (levelComplete o s).player_x = s.player_x := by
  unfold levelComplete; split <;> rfl

@[simp] theorem levelComplete_py (o : Oracle) (s : GameState) :
    (levelComplete o s).player_y = s.player_y := by
  unfold levelComplete; split <;> rfl

@[simp] theorem levelComplete_dir (o : Oracle) (s : GameState) :
    (levelComplete o s).alien_direction = s.alien_direction := by
  unfold levelComplete; split <;> rfl

@[simp] theorem levelComplete_shots (o : Oracle) (s : GameState) :
    (levelComplete o s).shots_fired = s.shots_fired := by
  unfold levelComplete; split <;> rfl

@[simp] theorem levelComplete_lives (o : Oracle) (s : GameState) :
    (levelComplete o s).lives = s.lives := by
  unfold levelComplete; split <;> rfl

@[simp] theorem levelComplete_go (o : Oracle) (s : GameState) :
    (levelComplete o s).game_over = s.game_over := by
  unfold levelComplete; split <;> rfl

@[simp] theorem levelComplete_counter (o : Oracle) (s : GameState) :
    (levelComplete o s).alien_anim_counter = s.alien_anim_counter := by
  unfold levelComplete; split <;> rfl

@[simp] theorem aliensBottom_px (s : GameState) :
    ((aliensBottom s).1).player_x = s.player_x := by
  unfold aliensBottom; split <;> rfl

@[simp] theorem aliensBottom_py (s : GameState) :
    ((aliensBottom s).1).player_y = s.player_y := by
  unfold aliensBottom; split <;> rfl

@[simp] theorem aliensBottom_dir (s : GameState) :
    ((aliensBottom s).1).alien_direction = s.alien_direction := by
  unfold aliensBottom; split <;> rfl

@[simp] theorem aliensBottom_shots (s : GameState) :
    ((aliensBottom s).1).shots_fired = s.shots_fired := by
  unfold aliensBottom; split <;> rfl

@[simp] theorem aliensBottom_lives (s : GameState) :
    ((aliensBottom s).1).lives = s.lives := by
  unfold aliensBottom; split <;> rfl

@[simp] theorem aliensBottom_level (s : GameState) :
    ((aliensBottom s).1).level = s.level := by
  unfold aliensBottom; split <;> rfl

@[simp] theorem aliensBottom_speed (s : GameState) :
    ((aliensBottom s).1).alien_speed = s.alien_speed := by
  unfold aliensBottom; split <;> rfl

@[simp] theorem aliensBottom_counter (s : GameState) :
    ((aliensBottom s).1).alien_anim_counter = s.alien_anim_counter := by
  unfold aliensBottom; split <;> rfl

@[simp] theorem aliensBottom_aliens (s : GameState) :
    ((aliensBottom s).1).aliens = s.aliens := by
  unfold aliensBottom; split <;> rfl

theorem aliensBottom_go (s : GameState) (h : s.game_over = true) :
    ((aliensBottom s).1).game_over = true := by
  unfold aliensBottom; split <;> simp_all

@[simp] theorem phaseHits_px (o : Oracle) (d : Difficulty) (s : GameState) :
    ((phaseHits o d s).1).player_x = (phaseMid o d s).player_x := rfl

@[simp] theorem phaseHits_py (o : Oracle) (d : Difficulty) (s : GameState) :
    ((phaseHits o d s).1).player_y = (phaseMid o d s).player_y := rfl

@[simp] theorem phaseHits_dir (o : Oracle) (d : Difficulty) (s : GameState) :
    ((phaseHits o d s).1).alien_direction = (phaseMid o d s).alien_direction := rfl

@[simp] theorem phaseHits_shots (o : Oracle) (d : Difficulty) (s : GameState) :
    ((phaseHits o d s).1).shots_fired = (phaseMid o d s).shots_fired := rfl

@[simp] theorem phaseHits_level (o : Oracle) (d : Difficulty) (s : GameState) :
    ((phaseHits o d s).1).level = (phaseMid o d s).level := rfl

@[simp] theorem phaseHits_speed (o : Oracle) (d : Difficulty) (s : GameState) :
    ((phaseHits o d s).1).alien_speed = (phaseMid o d s).alien_speed := rfl

@[simp] theorem phaseHits_counter (o : Oracle) (d : Difficulty) (s : GameState) :
    ((phaseHits o d s).1).alien_anim_counter = (phaseMid o d s).alien_anim_counter := rfl

@[simp] theorem phaseHits_aliens (o : Oracle) (d : Difficulty) (s : GameState) :
    ((phaseHits o d s).1).aliens = (phaseMid o d s).aliens := rfl

/-! Composite lemmas through the tick prefixes. -/

theorem phaseMid_px (o : Oracle) (d : Difficulty) (s : GameState) :
    (phaseMid o d s).player_x = (movePlayer s).player_x := by
  unfold phaseMid phaseShoot phaseFormation; simp

theorem phaseMid_py (o : Oracle) (d : Difficulty) (s : GameState) :
    (phaseMid o d s).player_y = s.player_y := by
  unfold phaseMid phaseShoot phaseFormation; simp

theorem phaseMid_lives (o : Oracle) (d : Difficulty) (s : GameState) :
    (phaseMid o d s).lives = s.lives := by
  unfold phaseMid phaseShoot phaseFormation; simp

theorem phaseMid_go (o : Oracle) (d : Difficulty) (s : GameState) :
    (phaseMid o d s).game_over = s.game_over := by
  unfold phaseMid phaseShoot phaseFormation; simp

theorem phaseMid_level (o : Oracle) (d : Difficulty) (s : GameState) :
    (phaseMid o d s).level = s.level := by
  unfold phaseMid phaseShoot phaseFormation; simp

theorem phaseMid_speed (o : Oracle) (d : Difficulty) (s : GameState) :
    (phaseMid o d s).alien_speed = s.alien_speed := by
  unfold phaseMid phaseShoot phaseFormation; simp

theorem phaseMid_dir (o : Oracle) (d : Difficulty) (s : GameState) :
    (phaseMid o d s).alien_direction = (phaseFormation s).alien_direction := by
  unfold phaseMid phaseShoot; simp

theorem phaseMid_counter (o : Oracle) (d : Difficulty) (s : GameState) :
    (phaseMid o d s).alien_anim_counter = (phaseFormation s).alien_anim_counter := by
  unfold phaseMid phaseShoot; simp

theorem phaseMid_shots (o : Oracle) (d : Difficulty) (s : GameState) :
    (phaseMid o d s).shots_fired = s.shots_fired +
      if mysteryHitNow (collideAliens d (mysteryMove o (phaseShoot o d s).1)) then 1 else 0 := by
  unfold phaseMid
  rw [collideMystery_shots]
  unfold phaseShoot phaseFormation
  simp

theorem update_logic_px (o : Oracle) (d : Difficulty) (s : GameState) :
    (update_logic o d s).1.player_x =
      if s.game_over then s.player_x else (movePlayer s).player_x := by
  unfold update_logic
  split
  · simp_all
  · simp_all [phaseMid_px]

theorem update_logic_dir (o : Oracle) (d : Difficulty) (s : GameState) :
    (update_logic o d s).1.alien_direction =
      if s.game_over then s.alien_direction else (phaseFormation s).alien_direction := by
  unfold update_logic
  split
  · simp_all
  · simp_all [phaseMid_dir]

theorem update_logic_shots (o : Oracle) (d : Difficulty) (s : GameState) :
    (update_logic o d s).1.shots_fired =
      s.shots_fired + if tickMysteryDestroyed o d s then 1 else 0 := by
  unfold update_logic tickMysteryDestroyed
  split
  · simp_all
  · simp_all [phaseMid_shots]

/-! The alien-bullets-versus-player loop. -/

theorem alienBulletsPlayerLoop_noHits0 (px py : Int) (score : Nat) (l : List (Int × Int))
    (lives : Int) (go : Bool) (h : ∀ p ∈ l, bulletHitsPlayer px py p = false) :
    alienBulletsPlayerLoop px py score l lives go = (l, lives, go, []) := by
  revert h
  induction l generalizing lives go with
  | nil => intro h; rfl
  | cons b rest ih =>
    intro h
    have hb := h b (List.mem_cons_self b rest)
    unfold alienBulletsPlayerLoop
    simp [hb, ih _ _ fun p hp => h p (List.mem_cons_of_mem b hp)]

theorem alienBulletsPlayerLoop_noHits (px py : Int) (score : Nat) (l : List (Int × Int))
    (lives : Int) (go : Bool) (h : l.countP (bulletHitsPlayer px py) = 0) :
    alienBulletsPlayerLoop px py score l lives go = (l, lives, go, []) := by
  refine alienBulletsPlayerLoop_noHits0 px py score l lives go fun p hp => ?_
  have := List.countP_eq_zero.mp h p hp
  simp_all

theorem alienBulletsPlayerLoop_oneHit (px py : Int) (score : Nat) (l : List (Int × Int))
    (go : Bool) (h : l.countP (bulletHitsPlayer px py) = 1) :
    alienBulletsPlayerLoop px py score l 1 go =
      (l.filter (fun b => !bulletHitsPlayer px py b), 0, true, [.requestInitials score]) := by
  induction l generalizing go with
  | nil => simp at h
  | cons b rest ih =>
    rw [List.countP_cons] at h
    cases hb : bulletHitsPlayer px py b with
    | true =>
      rw [hb, if_pos rfl] at h
      have hrest : rest.countP (bulletHitsPlayer px py) = 0 := by omega
      have hfilter : rest.filter (fun b => !bulletHitsPlayer px py b) = rest := by
        rw [List.filter_eq_self]
        intro a ha
        have := List.countP_eq_zero.mp hrest a ha
        simp_all
      have hloop := alienBulletsPlayerLoop_noHits px py score rest 0 true hrest
      unfold alienBulletsPlayerLoop
      simp [hb, hloop, hfilter, List.filter_cons]
    | false =>
      rw [hb, if_neg (by simp), Nat.add_zero] at h
      unfold alienBulletsPlayerLoop
      simp [hb, ih _ h, List.filter_cons]

/-! Fresh formations. -/

theorem createAliens_length (colors : Nat → Nat) : (createAliens colors).length = 55 := rfl

theorem createAliens_frames (colors : Nat → Nat) :
    ∀ a ∈ createAliens colors, a.frame = 0 := by
  intro a ha
  unfold createAliens at ha
  simp only [List.mem_bind, List.mem_map, List.mem_range] at ha
  obtain ⟨row, _, col, _, rfl⟩ := ha
  rfl

theorem levelComplete_empty (o : Oracle) (s : GameState) (h : s.aliens = []) :
    levelComplete o s =
      { s with
        level := s.level + 1
        alien_speed := s.alien_speed + 2
        aliens := createAliens o.colors } := by
  unfold levelComplete
  rw [h]
  rfl

theorem aliensBottom_no_emit (s : GameState)
    (h : (s.aliens.any fun a => decide (s.player_y ≤ a.y + 30)) = false) :
    (aliensBottom s).2 = [] := by
  unfold aliensBottom
  rw [h]
  rfl

/-! Player movement clamping. -/

@[simp] theorem setKeys_px (l r : Bool) (s : GameState) :
    (setKeys l r s).player_x = s.player_x := rfl

@[simp] theorem setKeys_shots (l r : Bool) (s : GameState) :
    (setKeys l r s).shots_fired = s.shots_fired := rfl

theorem movePlayer_range (s : GameState)
    (h : 0 ≤ s.player_x ∧ s.player_x ≤ WORLD_W - PLAYER_WIDTH) :
    (0 ≤ (movePlayer s).player_x ∧ (movePlayer s).player_x ≤ WORLD_W - PLAYER_WIDTH) ∧
    s.player_x - 10 ≤ (movePlayer s).player_x ∧
    (movePlayer s).player_x ≤ s.player_x + 10 := by
  unfold movePlayer
  dsimp only
  cases s.keys_left <;> cases s.keys_right <;>
    simp_all [WORLD_W, PLAYER_WIDTH] <;> omega

theorem tick_px_range (o : Oracle) (d : Difficulty) (s : GameState)
    (h : 0 ≤ s.player_x ∧ s.player_x ≤ WORLD_W - PLAYER_WIDTH) :
    (0 ≤ (update_logic o d s).1.player_x ∧
      (update_logic o d s).1.player_x ≤ WORLD_W - PLAYER_WIDTH) ∧
    s.player_x - 10 ≤ (update_logic o d s).1.player_x ∧
    (update_logic o d s).1.player_x ≤ s.player_x + 10 := by
  rw [update_logic_px]
  split
  · exact ⟨h, by omega, by omega⟩
  · exact movePlayer_range s h

theorem runTicksI_range (d : Difficulty) (steps : List (Oracle × Bool × Bool))
    (s : GameState) (h : 0 ≤ s.player_x ∧ s.player_x ≤ WORLD_W - PLAYER_WIDTH) :
    0 ≤ (runTicksI d steps s).player_x ∧
      (runTicksI d steps s).player_x ≤ WORLD_W - PLAYER_WIDTH := by
  induction steps generalizing s with
  | nil => exact h
  | cons st rest ih =>
    have h1 := tick_px_range st.1 d (setKeys st.2.1 st.2.2 s) (by simpa using h)
    exact ih _ h1.1

/-- C1: destroying the mystery ship with a player bullet removes the first
overlapping bullet, removes the ship, resets the spawn countdown to the
fresh randint draw, and awards exactly min(50 + ((shots_fired + 1 + 22) mod
15) * 50, 300) points, shots_fired being incremented by one inside the
scoring call before the formula reads it; in particular from shots_fired =
2 one destruction call sets the counter to 3 and awards exactly 300
points. -/
theorem C1_mystery_ship_destruction (o : Oracle) (s : GameState) (ship : Int × Int)
    (hs : s.mystery_ship = some ship)
    (hhit : (s.bullets.any fun b => bulletHitsShip b ship) = true) :
    collideMystery o s =
      { s with
        bullets := s.bullets.eraseP fun b => bulletHitsShip b ship
        shots_fired := s.shots_fired + 1
        score := s.score + min (50 + ((s.shots_fired + 1 + 22) % 15) * 50) 300
        mystery_ship := none
        mystery_ship_cooldown := o.cooldown_draw } ∧
    (s.shots_fired = 2 →
      (collideMystery o s).shots_fired = 3 ∧
      (collideMystery o s).score = s.score + 300) := by
  have h1 : collideMystery o s =
      { s with
        bullets := s.bullets.eraseP fun b => bulletHitsShip b ship
        shots_fired := s.shots_fired + 1
        score := s.score + min (50 + ((s.shots_fired + 1 + 22) % 15) * 50) 300
        mystery_ship := none
        mystery_ship_cooldown := o.cooldown_draw } := by
    unfold collideMystery
    simp only [hs]
    rw [if_pos hhit]
    rfl
  refine ⟨h1, fun h2 => ?_⟩
  rw [h1]
  simp [h2]

/-- C1 witness: a concrete state with a ship at (400, 50), one overlapping
bullet and shots_fired = 2. -/
theorem C1_witness :
    shipHitState.mystery_ship = some (400, 50) ∧
    (shipHitState.bullets.any fun b => bulletHitsShip b (400, 50)) = true ∧
    (collideMystery baseOracle shipHitState =
      { shipHitState with
        bullets := shipHitState.bullets.eraseP fun b => bulletHitsShip b (400, 50)
        shots_fired := shipHitState.shots_fired + 1
        score := shipHitState.score +
          min (50 + ((shipHitState.shots_fired + 1 + 22) % 15) * 50) 300
        mystery_ship := none
        mystery_ship_cooldown := baseOracle.cooldown_draw } ∧
      (shipHitState.shots_fired = 2 →
        (collideMystery baseOracle shipHitState).shots_fired = 3 ∧
        (collideMystery baseOracle shipHitState).score = shipHitState.score + 300)) :=
  ⟨rfl, by decide,
    C1_mystery_ship_destruction baseOracle shipHitState (400, 50) rfl (by decide)⟩

/-- C6: in the projectile advance phase every surviving player bullet moves
up by exactly 20 and every surviving alien bullet moves down by exactly 15,
a bullet is dropped exactly when its pre-move position is at or beyond the
top (player bullets, y ≤ 0) or the bottom (alien bullets, y ≥ world
height), and the relative order of the survivors is preserved. -/
theorem C6_projectile_advance (s : GameState) :
    ((moveBullets s).bullets =
      (s.bullets.filter fun b => decide (0 < b.2)).map fun b => (b.1, b.2 - 20)) ∧
    ((moveBullets s).alien_bullets =
      (s.alien_bullets.filter fun b => decide (b.2 < WORLD_H)).map fun b => (b.1, b.2 + 15)) ∧
    List.Sublist (moveBullets s).bullets (s.bullets.map fun b => (b.1, b.2 - 20)) ∧
    List.Sublist (moveBullets s).alien_bullets (s.alien_bullets.map fun b => (b.1, b.2 + 15)) ∧
    (∀ b, b ∈ (moveBullets s).bullets ↔
      ∃ b0 ∈ s.bullets, 0 < b0.2 ∧ b = (b0.1, b0.2 - 20)) ∧
    (∀ b, b ∈ (moveBullets s).alien_bullets ↔
      ∃ b0 ∈ s.alien_bullets, b0.2 < WORLD_H ∧ b = (b0.1, b0.2 + 15)) := by
  refine ⟨rfl, rfl, ?_, ?_, ?_, ?_⟩
  · exact List.Sublist.map _ (List.filter_sublist s.bullets)
  · exact List.Sublist.map _ (List.filter_sublist s.alien_bullets)
  · intro b
    simp only [moveBullets, List.mem_map, List.mem_filter, decide_eq_true_eq]
    constructor
    · rintro ⟨a, ⟨ha, h2⟩, rfl⟩
      exact ⟨a, ha, h2, rfl⟩
    · rintro ⟨a, ha, h2, rfl⟩
      exact ⟨a, ⟨ha, h2⟩, rfl⟩
  · intro b
    simp only [moveBullets, List.mem_map, List.mem_filter, decide_eq_true_eq]
    constructor
    · rintro ⟨a, ⟨ha, h2⟩, rfl⟩
      exact ⟨a, ha, h2, rfl⟩
    · rintro ⟨a, ha, h2, rfl⟩
      exact ⟨a, ⟨ha, h2⟩, rfl⟩

theorem animate_aliens_yf (s : GameState) (f : Int → Int) :
    (animate s).aliens.map (fun a => f a.y) = s.aliens.map fun a => f a.y := by
  unfold animate
  split
  · simp
  · rfl

/-- C4: in one tick, for every formation state, at most one direction flip
and at most one downward shift happen: the formation phase produces
direction = -direction exactly when some post-move alien has x ≤ 0 or
x ≥ WORLD_W - 40 (and direction unchanged otherwise), every alien is
shifted down by exactly 20 exactly when that edge hit is recorded, and the
direction after the whole tick equals the formation phase value. -/
theorem C4_single_flip_and_shift (o : Oracle) (d : Difficulty) (s : GameState)
    (hgo : s.game_over = false) :
    ((phaseFormation s).alien_direction =
      if edgeHit (moveAliensStep (moveBullets (movePlayer s))) then
        -s.alien_direction else s.alien_direction) ∧
    ((phaseFormation s).aliens.map (fun a => a.y) =
      (moveAliensStep (moveBullets (movePlayer s))).aliens.map fun a =>
        a.y + if edgeHit (moveAliensStep (moveBullets (movePlayer s))) then 20 else 0) ∧
    ((update_logic o d s).1.alien_direction =
      if edgeHit (moveAliensStep (moveBullets (movePlayer s))) then
        -s.alien_direction else s.alien_direction) := by
  have hdir : (phaseFormation s).alien_direction =
      if edgeHit (moveAliensStep (moveBullets (movePlayer s))) then
        -s.alien_direction else s.alien_direction := by
    simp only [phaseFormation]
    rw [applyEdge_dir]
    simp [mul_neg_one]
  refine ⟨hdir, ?_, ?_⟩
  · simp only [phaseFormation]
    rw [applyEdge_aliens_y]
    exact animate_aliens_yf _ fun y =>
      y + if edgeHit (moveAliensStep (moveBullets (movePlayer s))) then 20 else 0
  · rw [update_logic_dir]
    simp only [hgo, Bool.false_eq_true, if_false]
    exact hdir

/-- C4 witness: the formation phase of one tick from the quiet base
state. -/
theorem C4_witness :
    baseState.game_over = false ∧
    (((phaseFormation baseState).alien_direction =
      if edgeHit (moveAliensStep (moveBullets (movePlayer baseState))) then
        -baseState.alien_direction else baseState.alien_direction) ∧
    ((phaseFormation baseState).aliens.map (fun a => a.y) =
      (moveAliensStep (moveBullets (movePlayer baseState))).aliens.map fun a =>
        a.y + if edgeHit (moveAliensStep (moveBullets (movePlayer baseState))) then 20 else 0) ∧
    ((update_logic baseOracle Difficulty.E baseState).1.alien_direction =
      if edgeHit (moveAliensStep (moveBullets (movePlayer baseState))) then
        -baseState.alien_direction else baseState.alien_direction)) :=
  ⟨rfl, C4_single_flip_and_shift baseOracle Difficulty.E baseState rfl⟩

/-- C5: the player x coordinate stays in [0, WORLD_W - PLAYER_WIDTH] after
every tick of every run, from any in-range state and from the reset state,
with the per-tick change bounded by the fixed step 10; the movement is
monotone in the starting x and clamping to the range is idempotent. -/
theorem C5_player_clamped (d : Difficulty) (steps : List (Oracle × Bool × Bool))
    (o : Oracle) (s : GameState)
    (h : 0 ≤ s.player_x ∧ s.player_x ≤ WORLD_W - PLAYER_WIDTH) :
    (0 ≤ (runTicksI d steps s).player_x ∧
      (runTicksI d steps s).player_x ≤ WORLD_W - PLAYER_WIDTH) ∧
    (∀ (colors : Nat → Nat) (cd : Int) (kl kr : Bool),
      0 ≤ (runTicksI d steps (reset_state colors cd kl kr)).player_x ∧
      (runTicksI d steps (reset_state colors cd kl kr)).player_x ≤
        WORLD_W - PLAYER_WIDTH) ∧
    (0 ≤ (update_logic o d s).1.player_x ∧
      (update_logic o d s).1.player_x ≤ WORLD_W - PLAYER_WIDTH ∧
      s.player_x - 10 ≤ (update_logic o d s).1.player_x ∧
      (update_logic o d s).1.player_x ≤ s.player_x + 10) ∧
    (∀ x y : Int, x ≤ y →
      (movePlayer { s with player_x := x }).player_x ≤
        (movePlayer { s with player_x := y }).player_x) ∧
    (∀ x : Int,
      min (WORLD_W - PLAYER_WIDTH) (max 0 (min (WORLD_W - PLAYER_WIDTH) (max 0 x))) =
        min (WORLD_W - PLAYER_WIDTH) (max 0 x)) := by
  refine ⟨runTicksI_range d steps s h, ?_, ?_, ?_, ?_⟩
  · intro colors cd kl kr
    refine runTicksI_range d steps _ ⟨?_, ?_⟩ <;>
      norm_num [reset_state, WORLD_W, PLAYER_WIDTH]
  · have h1 := tick_px_range o d s h
    exact ⟨h1.1.1, h1.1.2, h1.2.1, h1.2.2⟩
  · intro x y hxy
    unfold movePlayer
    dsimp only
    cases s.keys_left <;> cases s.keys_right <;> simp_all <;> omega
  · intro x
    omega

/-- C5 witness: one tick with the left key held, from the centered base
state. -/
theorem C5_witness :
    (0 ≤ baseState.player_x ∧ baseState.player_x ≤ WORLD_W - PLAYER_WIDTH) ∧
    ((0 ≤ (runTicksI Difficulty.E [(baseOracle, true, false)] baseState).player_x ∧
      (runTicksI Difficulty.E [(baseOracle, true, false)] baseState).player_x ≤
        WORLD_W - PLAYER_WIDTH) ∧
    (∀ (colors : Nat → Nat) (cd : Int) (kl kr : Bool),
      0 ≤ (runTicksI Difficulty.E [(baseOracle, true, false)]
        (reset_state colors cd kl kr)).player_x ∧
      (runTicksI Difficulty.E [(baseOracle, true, false)]
        (reset_state colors cd kl kr)).player_x ≤ WORLD_W - PLAYER_WIDTH) ∧
    (0 ≤ (update_logic baseOracle Difficulty.E baseState).1.player_x ∧
      (update_logic baseOracle Difficulty.E baseState).1.player_x ≤
        WORLD_W - PLAYER_WIDTH ∧
      baseState.player_x - 10 ≤ (update_logic baseOracle Difficulty.E baseState).1.player_x ∧
      (update_logic baseOracle Difficulty.E baseState).1.player_x ≤
        baseState.player_x + 10) ∧
    (∀ x y : Int, x ≤ y →
      (movePlayer { baseState with player_x := x }).player_x ≤
        (movePlayer { baseState with player_x := y }).player_x) ∧
    (∀ x : Int,
      min (WORLD_W - PLAYER_WIDTH) (max 0 (min (WORLD_W - PLAYER_WIDTH) (max 0 x))) =
        min (WORLD_W - PLAYER_WIDTH) (max 0 x))) :=
  ⟨by decide,
    C5_player_clamped Difficulty.E [(baseOracle, true, false)] baseOracle baseState
      (by decide)⟩

/-- C2 counterexample: a tick from an empty formation moving left levels up
and rebuilds 55 aliens, but the formation direction stays -1 (it is not
reset to +1) and the shared animation counter is 1 (not reset to 0 by the
level up). -/
theorem C2_counterexample :
    emptyLeftState.aliens = [] ∧
    emptyLeftState.game_over = false ∧
    (update_logic baseOracle Difficulty.E emptyLeftState).1.level =
      emptyLeftState.level + 1 ∧
    (update_logic baseOracle Difficulty.E emptyLeftState).1.aliens.length = 55 ∧
    (update_logic baseOracle Difficulty.E emptyLeftState).1.alien_direction = -1 ∧
    ¬ (update_logic baseOracle Difficulty.E emptyLeftState).1.alien_direction = 1 ∧
    (update_logic baseOracle Difficulty.E emptyLeftState).1.alien_anim_counter = 1 ∧
    ¬ (update_logic baseOracle Difficulty.E emptyLeftState).1.alien_anim_counter = 0 := by
  decide

/-- C2 (amended): in every tick whose alien collection is empty after
collision resolution, the level grows by exactly 1, the formation speed by
exactly 2, and a fresh full 55-alien formation with new random color
indices, reset positions and per-alien frame 0 is created, exactly once;
the shared formation direction and the shared animation counter are NOT
reset by the level up (they keep the value the formation phase of the same
tick produced). -/
theorem C2_level_up (o : Oracle) (d : Difficulty) (s : GameState)
    (hgo : s.game_over = false)
    (hempty : ((phaseHits o d s).1).aliens = []) :
    (update_logic o d s).1.level = s.level + 1 ∧
    (update_logic o d s).1.alien_speed = s.alien_speed + 2 ∧
    (update_logic o d s).1.aliens = createAliens o.colors ∧
    (createAliens o.colors).length = 55 ∧
    (∀ a ∈ createAliens o.colors, a.frame = 0) ∧
    (update_logic o d s).1.alien_direction = (phaseFormation s).alien_direction ∧
    (update_logic o d s).1.alien_anim_counter = (phaseFormation s).alien_anim_counter := by
  have hne : ¬ (s.game_over = true) := by simp [hgo]
  have hu : update_logic o d s =
      ((aliensBottom (levelComplete o (phaseHits o d s).1)).1,
        (phaseShoot o d s).2 ++ (phaseHits o d s).2 ++
          (aliensBottom (levelComplete o (phaseHits o d s).1)).2) := by
    unfold update_logic
    rw [if_neg hne]
  have hlc := levelComplete_empty o ((phaseHits o d s).1) hempty
  rw [hu]
  refine ⟨?_, ?_, ?_, createAliens_length o.colors, createAliens_frames o.colors, ?_, ?_⟩
  · simp [hlc, phaseMid_level]
  · simp [hlc, phaseMid_speed]
  · simp [hlc]
  · simp [hlc, phaseMid_dir]
  · simp [hlc, phaseMid_counter]

/-- C2 witness: the level up conclusions evaluated from the empty left
moving formation. -/
theorem C2_witness :
    emptyLeftState.game_over = false ∧
    ((phaseHits baseOracle Difficulty.E emptyLeftState).1).aliens = [] ∧
    ((update_logic baseOracle Difficulty.E emptyLeftState).1.level =
      emptyLeftState.level + 1 ∧
    (update_logic baseOracle Difficulty.E emptyLeftState).1.alien_speed =
      emptyLeftState.alien_speed + 2 ∧
    (update_logic baseOracle Difficulty.E emptyLeftState).1.aliens =
      createAliens baseOracle.colors ∧
    (createAliens baseOracle.colors).length = 55 ∧
    (∀ a ∈ createAliens baseOracle.colors, a.frame = 0) ∧
    (update_logic baseOracle Difficulty.E emptyLeftState).1.alien_direction =
      (phaseFormation emptyLeftState).alien_direction ∧
    (update_logic baseOracle Difficulty.E emptyLeftState).1.alien_anim_counter =
      (phaseFormation emptyLeftState).alien_anim_counter) :=
  ⟨rfl, by decide,
    C2_level_up baseOracle Difficulty.E emptyLeftState rfl (by decide)⟩

/-- C3 counterexample: with one life left and two alien bullets that both
overlap the player, one single tick emits the request_initials (GameOver)
event twice, refuting the at-most-once bound. -/
theorem C3_counterexample :
    twoBulletState.lives = 1 ∧
    twoBulletState.game_over = false ∧
    (update_logic baseOracle Difficulty.E twoBulletState).2.countP isGameOverEvent = 2 := by
  decide

/-- C3 (amended): every alien bullet hit that leaves lives at or below zero
emits one GameOver event, so a tick may emit several; in the scenario with
exactly one life and exactly one alien bullet hitting the player at the
collision phase, and no alien reaching the bottom row afterwards, the tick
ends with lives = 0, game_over set, and exactly one GameOver event
emitted. -/
theorem C3_lethal_hit (o : Oracle) (d : Difficulty) (s : GameState)
    (hgo : s.game_over = false)
    (hlive : (phaseMid o d s).lives = 1)
    (hone : (phaseMid o d s).alien_bullets.countP
      (bulletHitsPlayer (phaseMid o d s).player_x (phaseMid o d s).player_y) = 1)
    (hbot : ((levelComplete o (phaseHits o d s).1).aliens.any fun a =>
      decide ((levelComplete o (phaseHits o d s).1).player_y ≤ a.y + 30)) = false) :
    (update_logic o d s).1.lives = 0 ∧
    (update_logic o d s).1.game_over = true ∧
    (update_logic o d s).2.countP isGameOverEvent = 1 := by
  have hne : ¬ (s.game_over = true) := by simp [hgo]
  have hloop := alienBulletsPlayerLoop_oneHit (phaseMid o d s).player_x
    (phaseMid o d s).player_y (phaseMid o d s).score (phaseMid o d s).alien_bullets
    (phaseMid o d s).game_over hone
  have hph : phaseHits o d s =
      ({ phaseMid o d s with
          alien_bullets := (phaseMid o d s).alien_bullets.filter
            fun b => !bulletHitsPlayer (phaseMid o d s).player_x (phaseMid o d s).player_y b
          lives := 0
          game_over := true },
        [.requestInitials (phaseMid o d s).score]) := by
    simp only [phaseHits]
    rw [hlive, hloop]
  have hu : update_logic o d s =
      ((aliensBottom (levelComplete o (phaseHits o d s).1)).1,
        (phaseShoot o d s).2 ++ (phaseHits o d s).2 ++
          (aliensBottom (levelComplete o (phaseHits o d s).1)).2) := by
    unfold update_logic
    rw [if_neg hne]
  rw [hu]
  refine ⟨?_, ?_, ?_⟩
  · simp [hph]
  · exact aliensBottom_go _ (by simp [hph])
  · have e1 : (phaseShoot o d s).2.countP isGameOverEvent = 0 := by
      rcases alienShoot_events o d (phaseFormation s) with h | h <;>
        simp [phaseShoot, h, isGameOverEvent]
    have e2 : (phaseHits o d s).2.countP isGameOverEvent = 1 := by
      rw [hph]
      simp [isGameOverEvent]
    have e3 : (aliensBottom (levelComplete o (phaseHits o d s).1)).2 = [] :=
      aliensBottom_no_emit _ hbot
    simp [List.countP_append, e1, e2, e3]

/-- C3 witness: one life, a single overlapping alien bullet, evaluated
concretely. -/
theorem C3_witness :
    oneBulletState.game_over = false ∧
    (phaseMid baseOracle Difficulty.E oneBulletState).lives = 1 ∧
    (phaseMid baseOracle Difficulty.E oneBulletState).alien_bullets.countP
      (bulletHitsPlayer (phaseMid baseOracle Difficulty.E oneBulletState).player_x
        (phaseMid baseOracle Difficulty.E oneBulletState).player_y) = 1 ∧
    (((levelComplete baseOracle (phaseHits baseOracle Difficulty.E oneBulletState).1).aliens.any
        fun a => decide ((levelComplete baseOracle
          (phaseHits baseOracle Difficulty.E oneBulletState).1).player_y ≤ a.y + 30)) = false) ∧
    ((update_logic baseOracle Difficulty.E oneBulletState).1.lives = 0 ∧
      (update_logic baseOracle Difficulty.E oneBulletState).1.game_over = true ∧
      (update_logic baseOracle Difficulty.E oneBulletState).2.countP isGameOverEvent = 1) :=
  ⟨rfl, by decide, by decide, by decide,
    C3_lethal_hit baseOracle Difficulty.E oneBulletState rfl (by decide) (by decide)
      (by decide)⟩

/-- C9 counterexample: the ship exit redraw with the randint outcome 1000
(a value random.randint(600, 1000) can produce) leaves a countdown of 1000,
outside the claimed half-open range [600, 1000). -/
theorem C9_counterexample :
    600 ≤ maxDrawOracle.cooldown_draw ∧ maxDrawOracle.cooldown_draw ≤ 1000 ∧
    (mysteryMove maxDrawOracle shipExitState).mystery_ship = none ∧
    (mysteryMove maxDrawOracle shipExitState).mystery_ship_cooldown = 1000 ∧
    ¬ (mysteryMove maxDrawOracle shipExitState).mystery_ship_cooldown < 1000 := by
  decide

/-- C9 (amended): every drawn or redrawn mystery ship countdown — at
session reset, when the present ship exits the world bounds, and when the
ship is destroyed by a player bullet — is the fresh randint(600, 1000)
draw, which lies in the inclusive range [600, 1000]. -/
theorem C9_cooldown_range (o : Oracle) (s : GameState) (colors : Nat → Nat) (cd : Int)
    (kl kr : Bool) (ship : Int × Int)
    (hdraw : 600 ≤ o.cooldown_draw ∧ o.cooldown_draw ≤ 1000)
    (hcd : 600 ≤ cd ∧ cd ≤ 1000) :
    (600 ≤ (reset_state colors cd kl kr).mystery_ship_cooldown ∧
      (reset_state colors cd kl kr).mystery_ship_cooldown ≤ 1000) ∧
    (s.mystery_ship = some ship →
      (ship.1 + s.mystery_ship_direction * 5 < -60 ∨
        WORLD_W < ship.1 + s.mystery_ship_direction * 5) →
      (mysteryMove o s).mystery_ship = none ∧
      600 ≤ (mysteryMove o s).mystery_ship_cooldown ∧
      (mysteryMove o s).mystery_ship_cooldown ≤ 1000) ∧
    (s.mystery_ship = some ship →
      (s.bullets.any fun b => bulletHitsShip b ship) = true →
      (collideMystery o s).mystery_ship = none ∧
      600 ≤ (collideMystery o s).mystery_ship_cooldown ∧
      (collideMystery o s).mystery_ship_cooldown ≤ 1000) := by
  refine ⟨⟨hcd.1, hcd.2⟩, ?_, ?_⟩
  · intro hs hexit
    unfold mysteryMove
    simp only [hs]
    rw [if_pos hexit]
    exact ⟨rfl, hdraw.1, hdraw.2⟩
  · intro hs hhit
    unfold collideMystery
    simp only [hs]
    rw [if_pos hhit]
    exact ⟨rfl, hdraw.1, hdraw.2⟩

/-- C9 witness: the exit redraw and a destruction redraw both evaluated at
a draw of 1000 and a reset countdown of 600. -/
theorem C9_witness :
    (600 ≤ maxDrawOracle.cooldown_draw ∧ maxDrawOracle.cooldown_draw ≤ 1000) ∧
    (600 ≤ (600 : Int) ∧ (600 : Int) ≤ 1000) ∧
    ((600 ≤ (reset_state (fun _ => 0) 600 false false).mystery_ship_cooldown ∧
      (reset_state (fun _ => 0) 600 false false).mystery_ship_cooldown ≤ 1000) ∧
    (shipExitState.mystery_ship = some (996, 50) →
      ((996 : Int) + shipExitState.mystery_ship_direction * 5 < -60 ∨
        WORLD_W < (996 : Int) + shipExitState.mystery_ship_direction * 5) →
      (mysteryMove maxDrawOracle shipExitState).mystery_ship = none ∧
      600 ≤ (mysteryMove maxDrawOracle shipExitState).mystery_ship_cooldown ∧
      (mysteryMove maxDrawOracle shipExitState).mystery_ship_cooldown ≤ 1000) ∧
    (shipExitState.mystery_ship = some (996, 50) →
      (shipExitState.bullets.any fun b => bulletHitsShip b (996, 50)) = true →
      (collideMystery maxDrawOracle shipExitState).mystery_ship = none ∧
      600 ≤ (collideMystery maxDrawOracle shipExitState).mystery_ship_cooldown ∧
      (collideMystery maxDrawOracle shipExitState).mystery_ship_cooldown ≤ 1000)) :=
  ⟨by decide, by decide,
    C9_cooldown_range maxDrawOracle shipExitState (fun _ => 0) 600 false false (996, 50)
      (by decide) (by decide)⟩

/-- C10: the shots_fired counter is untouched by the player fire action, is
0 after a session reset, changes during a tick exactly by one increment
performed by the mystery ship scoring call when a destruction happens (and
not otherwise), and is monotonically non-decreasing over every run of
ticks. -/
theorem C10_shots_fired_monotone (o : Oracle) (d : Difficulty) (s : GameState)
    (colors : Nat → Nat) (cd : Int) (kl kr : Bool) :
    (fireBullet s).shots_fired = s.shots_fired ∧
    (reset_state colors cd kl kr).shots_fired = 0 ∧
    (update_logic o d s).1.shots_fired =
      s.shots_fired + (if tickMysteryDestroyed o d s then 1 else 0) ∧
    ∀ steps, s.shots_fired ≤ (runTicksI d steps s).shots_fired := by
  refine ⟨rfl, rfl, update_logic_shots o d s, ?_⟩
  intro steps
  induction steps generalizing s with
  | nil => exact Nat.le_refl _
  | cons st rest ih =>
    have h1 : s.shots_fired ≤ (update_logic st.1 d (setKeys st.2.1 st.2.2 s)).1.shots_fired := by
      rw [update_logic_shots, setKeys_shots]
      exact Nat.le_add_right _ _
    exact le_trans h1 (ih _)

/-- C8 counterexample: an existing file whose open or read raises OSError,
and an existing file whose bytes fail text decoding, both let the
exception escape load_scores, refuting the claim that for every file state
no exception escapes the load. -/
theorem C8_counterexample :
    load_scores .unreadable = .error .osError ∧
    load_scores .undecodable = .error .unicodeDecodeError ∧
    ¬ ∃ l, load_scores .unreadable = Except.ok l := by
  refine ⟨rfl, rfl, ?_⟩
  rintro ⟨l, hl⟩
  simp [load_scores, fileExists, json_load] at hl

/-- C8 (amended): load is best-effort for the two anticipated cases only: a
missing file yields the empty table and JSON-undecodable content yields
the empty table, in both cases without failing the caller, and the caught
JSONDecodeError never escapes; but an existing file whose open or read
raises OSError, or whose bytes fail text decoding (UnicodeDecodeError),
propagates that exception to the caller; a cleanly decodable file returns
its entries. -/
theorem C8_load_best_effort :
    load_scores .missing = .ok [] ∧
    load_scores .corrupt = .ok [] ∧
    (∀ l, load_scores (.saved l) = .ok l) ∧
    load_scores .unreadable = .error .osError ∧
    load_scores .undecodable = .error .unicodeDecodeError ∧
    ∀ f : ScoresFile, ¬ load_scores f = .error PyError.jsonDecodeError := by
  refine ⟨rfl, rfl, fun l => rfl, rfl, rfl, ?_⟩
  intro f h
  cases f <;> simp [load_scores, fileExists, json_load] at h

end SpaceInvaders
